import Mathlib

/-!
Shallow embedding of the admin order-list controller implemented in
src/Kissanbandi/src/pages/admin/AdminOrders.jsx.

The component is a React function component whose state lives in useState
hooks. We embed that state as an explicit record and every handler as a
state transformer. Network calls go through an abstract service record
OrdersApi; the outcome of each round trip is an Except value, where
Except.error models a rejected promise (a thrown RequestError) and a
successful response that is JavaScript null is modelled as Option.none.
Each operation also returns the list of service calls it issued, so that
claims about which requests are sent, and with which parameters, can be
stated directly.
-/

namespace AdminOrders

/-- Page size constant ITEMS_PER_PAGE from the source. -/
def ITEMS_PER_PAGE : Nat := 10

/-- Order summary as used by the controller; ids are modelled as naturals. -/
structure Order where
  _id : Nat
  status : String
  total : Nat
deriving Repr, DecidableEq

/-- Raw response of ordersApi.getAllOrders. The orders field is optional to
model a malformed response in which the field is missing or null. -/
structure OrdersResp where
  orders : Option (List Order)
  total : Nat
deriving Repr, DecidableEq

/-- Raw response of ordersApi.getOrderStats; every field optional, matching
the defaulting reads (response.totalOrders or 0, and so on) in the source. -/
structure StatsResp where
  totalOrders : Option Nat
  totalRevenue : Option Nat
  averageOrderValue : Option Nat
  statusBreakdown : Option (List (String × Nat))
  dailyStats : Option (List (String × Nat))
deriving Repr, DecidableEq

/-- The stats snapshot the controller stores in the orderStats hook after
applying the defaults. -/
structure StatsSnapshot where
  totalOrders : Nat
  totalRevenue : Nat
  averageOrderValue : Nat
  statusBreakdown : List (String × Nat)
  dailyStats : List (String × Nat)
deriving Repr, DecidableEq

/-- Query parameters of a service request. Absent object keys (the spread
patterns such as ...(startDate and { startDate }) in the source) are none. -/
structure Params where
  page : Option Nat := none
  limit : Option Nat := none
  status : Option String := none
  search : Option String := none
  sortField : Option String := none
  sortOrder : Option String := none
  startDate : Option String := none
  endDate : Option String := none
deriving Repr, DecidableEq

/-- One issued service call, with its arguments. -/
inductive ApiCall where
  | getAllOrders (p : Params)
  | getOrderStats (p : Params)
  | updateOrderStatus (oid : Nat) (newStatus : String)
  | exportOrders (p : Params)
deriving Repr, DecidableEq

/-- Abstract service: for each endpoint, what outcome a given request gets.
Except.error is a rejected promise carrying the error message; Option.none
inside ok is a null response body. -/
structure OrdersApi where
  getAllOrders : Params → Except String (Option OrdersResp)
  getOrderStats : Params → Except String (Option StatsResp)
  updateOrderStatus : Nat → String → Except String Unit
  exportOrders : Params → Except String (Option String)

/-- The useState hooks of the component, as one record. Dates are ISO
strings; selectedOrders is the JS Set in insertion order, hence a list;
toasts records the toast messages raised, most recent first. -/
structure AdminOrdersState where
  orders : List Order
  loading : Bool
  error : Option String
  startDate : Option String
  endDate : Option String
  orderStats : Option StatsSnapshot
  filterStatus : String
  updatingStatus : Option Nat
  currentPage : Nat
  totalPages : Nat
  exportLoading : Bool
  statsLoading : Bool
  searchTerm : String
  sortField : String
  sortOrder : String
  selectedOrders : List Nat
  bulkActionLoading : Bool
  toasts : List String
deriving Repr, DecidableEq

/-- The params object built by loadOrders: page, limit and all filter and
sort fields are always present; the dates only when set. -/
def loadOrdersParams (s : AdminOrdersState) (page : Nat) : Params :=
  { page := some page
    limit := some ITEMS_PER_PAGE
    status := some s.filterStatus
    search := some s.searchTerm
    sortField := some s.sortField
    sortOrder := some s.sortOrder
    startDate := s.startDate
    endDate := s.endDate }

/-- loadOrders(page): sets loading and clears error, issues getAllOrders,
and on a well-formed response replaces orders, totalPages
(Math.ceil(total / ITEMS_PER_PAGE)) and currentPage; a null or malformed
response or a rejection is caught: error is set, a toast raised, and the
orders list cleared. loading is reset in the finally block. -/
def loadOrders (api : OrdersApi) (s : AdminOrdersState) (page : Nat) :
    AdminOrdersState × List ApiCall :=
  let s0 := { s with loading := true, error := none }
  let params := loadOrdersParams s page
  let s1 :=
    match api.getAllOrders params with
    | .ok (some resp) =>
      match resp.orders with
      | some list =>
        { s0 with orders := list
                  totalPages := (resp.total + ITEMS_PER_PAGE - 1) / ITEMS_PER_PAGE
                  currentPage := page
                  error := none }
      | none =>
        { s0 with error := some "Invalid response format"
                  toasts := "Failed to load orders" :: s0.toasts
                  orders := [] }
    | .ok none =>
      { s0 with error := some "Invalid response format"
                toasts := "Failed to load orders" :: s0.toasts
                orders := [] }
    | .error msg =>
      { s0 with error := some (if msg = "" then "Failed to load orders" else msg)
                toasts := "Failed to load orders" :: s0.toasts
                orders := [] }
  ({ s1 with loading := false }, [ApiCall.getAllOrders params])

/-- The params object built by loadOrderStats: only the dates, when set. -/
def statsParams (s : AdminOrdersState) : Params :=
  { startDate := s.startDate, endDate := s.endDate }

/-- The snapshot stored in the catch branch of loadOrderStats: note that
totalOrders is set to orders.length there, not to zero. -/
def fallbackStats (s : AdminOrdersState) : StatsSnapshot :=
  { totalOrders := s.orders.length
    totalRevenue := 0
    averageOrderValue := 0
    statusBreakdown := []
    dailyStats := [] }

/-- loadOrderStats(): sets statsLoading and clears error, issues
getOrderStats with the date range; a well-formed response is stored with
each missing field defaulted; a null response or a rejection is caught:
error set, toast raised, and the fallback snapshot stored. -/
def loadOrderStats (api : OrdersApi) (s : AdminOrdersState) :
    AdminOrdersState × List ApiCall :=
  let s0 := { s with statsLoading := true, error := none }
  let s1 :=
    match api.getOrderStats (statsParams s) with
    | .ok (some resp) =>
      let snap : StatsSnapshot :=
        { totalOrders := resp.totalOrders.getD 0
          totalRevenue := resp.totalRevenue.getD 0
          averageOrderValue := resp.averageOrderValue.getD 0
          statusBreakdown := resp.statusBreakdown.getD []
          dailyStats := resp.dailyStats.getD [] }
      { s0 with orderStats := some snap }
    | .ok none =>
      { s0 with error := some "Invalid response format from stats API"
                toasts := "Invalid response format from stats API" :: s0.toasts
                orderStats := some (fallbackStats s0) }
    | .error msg =>
      let m := if msg = "" then "Failed to load order statistics" else msg
      { s0 with error := some m
                toasts := m :: s0.toasts
                orderStats := some (fallbackStats s0) }
  ({ s1 with statsLoading := false }, [ApiCall.getOrderStats (statsParams s)])

/-- The useEffect with dependencies
startDate, endDate, filterStatus, searchTerm, sortField, sortOrder:
on any change of a filter or sort field it runs loadOrders(1) followed by
loadOrderStats(). The state s is the state right after the changed field
was written. -/
def onFilterChange (api : OrdersApi) (s : AdminOrdersState) :
    AdminOrdersState × List ApiCall :=
  let r1 := loadOrders api s 1
  let r2 := loadOrderStats api r1.1
  (r2.1, r1.2 ++ r2.2)

/-- handleStatusUpdate(orderId, newStatus): marks the order updating,
issues one updateOrderStatus call; on success toasts and reloads the
current page and the stats; a rejection is caught and only toasted.
updatingStatus is reset in the finally block. -/
def handleStatusUpdate (api : OrdersApi) (s : AdminOrdersState)
    (orderId : Nat) (newStatus : String) : AdminOrdersState × List ApiCall :=
  let s0 := { s with updatingStatus := some orderId }
  match api.updateOrderStatus orderId newStatus with
  | .ok _ =>
    let s1 := { s0 with toasts := "Order status updated" :: s0.toasts }
    let r1 := loadOrders api s1 s1.currentPage
    let r2 := loadOrderStats api r1.1
    ({ r2.1 with updatingStatus := none },
     ApiCall.updateOrderStatus orderId newStatus :: (r1.2 ++ r2.2))
  | .error msg =>
    let m := if msg = "" then "Failed to update order status" else msg
    ({ s0 with toasts := m :: s0.toasts, updatingStatus := none },
     [ApiCall.updateOrderStatus orderId newStatus])

/-- The sequential for-of loop of handleBulkStatusUpdate: returns the ids
whose requests were issued, in order, and the error of the first rejected
request, if any. The loop stops at the first rejection, whose id is still
in the issued list. -/
def bulkLoop (upd : Nat → String → Except String Unit) (newStatus : String) :
    List Nat → List Nat × Option String
  | [] => ([], none)
  | oid :: rest =>
    match upd oid newStatus with
    | .ok _ =>
      let r := bulkLoop upd newStatus rest
      (oid :: r.1, r.2)
    | .error m => ([oid], some m)

/-- The ids whose update requests succeeded, hence were applied on the
server: the longest prefix of successful updates before the first
rejection. -/
def bulkApplied (upd : Nat → String → Except String Unit) (newStatus : String) :
    List Nat → List Nat
  | [] => []
  | oid :: rest =>
    match upd oid newStatus with
    | .ok _ => oid :: bulkApplied upd newStatus rest
    | .error _ => []

/-- Server-side effect of a run: every order whose update was applied has
the new status, every other order keeps its previous status. -/
def applyUpdates (server : Nat → String) (applied : List Nat)
    (newStatus : String) : Nat → String :=
  fun oid => if oid ∈ applied then newStatus else server oid

/-- handleBulkStatusUpdate(newStatus): with an empty selection it only
toasts. Otherwise it runs the sequential loop over Array.from of the
selection; on full success it toasts a summary, clears the selection and
reloads page and stats; a rejection partway is caught by the bare catch,
which toasts the one fixed message. bulkActionLoading is reset in the
finally block. -/
def handleBulkStatusUpdate (api : OrdersApi) (s : AdminOrdersState)
    (newStatus : String) : AdminOrdersState × List ApiCall :=
  if s.selectedOrders.length = 0 then
    ({ s with toasts := "No orders selected" :: s.toasts }, [])
  else
    let s0 := { s with bulkActionLoading := true }
    let r := bulkLoop api.updateOrderStatus newStatus s.selectedOrders
    let sentCalls := r.1.map (fun oid => ApiCall.updateOrderStatus oid newStatus)
    match r.2 with
    | none =>
      let s1 := { s0 with
        toasts := (toString s.selectedOrders.length ++ " orders updated to "
                    ++ newStatus) :: s0.toasts
        selectedOrders := [] }
      let r1 := loadOrders api s1 s1.currentPage
      let r2 := loadOrderStats api r1.1
      ({ r2.1 with bulkActionLoading := false }, sentCalls ++ r1.2 ++ r2.2)
    | some _ =>
      ({ s0 with toasts := "Failed to update selected orders" :: s0.toasts
                 bulkActionLoading := false }, sentCalls)

/-- The params object built by handleExportOrders: dates when set, status
and search only when non-empty; no page, limit or sort keys. -/
def exportParams (s : AdminOrdersState) : Params :=
  { startDate := s.startDate
    endDate := s.endDate
    status := if s.filterStatus = "" then none else some s.filterStatus
    search := if s.searchTerm = "" then none else some s.searchTerm }

/-- handleExportOrders(): sets exportLoading and clears error, issues one
exportOrders call with the export params; a null response or rejection is
caught: error set and toasted. The DOM download of the blob is outside the
model. exportLoading is reset in the finally block. -/
def handleExportOrders (api : OrdersApi) (s : AdminOrdersState) :
    AdminOrdersState × List ApiCall :=
  let s0 := { s with exportLoading := true, error := none }
  let s1 :=
    match api.exportOrders (exportParams s) with
    | .ok (some _) => { s0 with toasts := "Orders exported" :: s0.toasts }
    | .ok none =>
      { s0 with error := some "No response received from export API"
                toasts := "No response received from export API" :: s0.toasts }
    | .error msg =>
      let m := if msg = "" then "Failed to export orders" else msg
      { s0 with error := some m, toasts := m :: s0.toasts }
  ({ s1 with exportLoading := false }, [ApiCall.exportOrders (exportParams s)])

/-- toggleOrderSelection(orderId): copies the selection Set, deletes the id
if present, otherwise adds it (JS Set.add appends in insertion order). -/
def toggleOrderSelection (s : AdminOrdersState) (orderId : Nat) :
    AdminOrdersState :=
  if orderId ∈ s.selectedOrders then
    { s with selectedOrders := s.selectedOrders.erase orderId }
  else
    { s with selectedOrders := s.selectedOrders ++ [orderId] }

/-- toggleAllOrders(): clears the selection when its size equals the number
of loaded orders, otherwise selects the id of every loaded order (new Set
deduplicates, keeping first occurrences). -/
def toggleAllOrders (s : AdminOrdersState) : AdminOrdersState :=
  if s.selectedOrders.length = s.orders.length then
    { s with selectedOrders := [] }
  else
    { s with selectedOrders := (s.orders.map Order._id).dedup }

/-! Concrete fixtures used by witnesses and counterexamples. -/

/-- A sample order with id 1. -/
def sampleOrder1 : Order := { _id := 1, status := "pending", total := 100 }

/-- A sample order with id 2. -/
def sampleOrder2 : Order := { _id := 2, status := "pending", total := 250 }

/-- A sample order with id 3. -/
def sampleOrder3 : Order := { _id := 3, status := "shipped", total := 80 }

/-- A sample controller state with the default hook values. -/
def sampleState : AdminOrdersState :=
  { orders := []
    loading := false
    error := none
    startDate := none
    endDate := none
    orderStats := none
    filterStatus := ""
    updatingStatus := none
    currentPage := 1
    totalPages := 1
    exportLoading := false
    statsLoading := false
    searchTerm := ""
    sortField := "createdAt"
    sortOrder := "desc"
    selectedOrders := []
    bulkActionLoading := false
    toasts := [] }

/-- A service on which every request is rejected. -/
def failingApi : OrdersApi :=
  { getAllOrders := fun _ => .error "network down"
    getOrderStats := fun _ => .error "network down"
    updateOrderStatus := fun _ _ => .error "network down"
    exportOrders := fun _ => .error "network down" }

/-- A service on which every request succeeds; getAllOrders always returns
the one-order page containing sampleOrder3. -/
def okApi : OrdersApi :=
  { getAllOrders := fun _ => .ok (some { orders := some [sampleOrder3], total := 1 })
    getOrderStats := fun _ => .ok (some
      { totalOrders := some 1
        totalRevenue := some 80
        averageOrderValue := some 80
        statusBreakdown := none
        dailyStats := none })
    updateOrderStatus := fun _ _ => .ok ()
    exportOrders := fun _ => .ok (some "csv") }

/-- A sample state whose selection holds the ids 1 and 2. -/
def toggleWitnessState : AdminOrdersState :=
  { sampleState with selectedOrders := [1, 2] }

/-- A sample state displaying the two orders with ids 1 and 2. -/
def twoOrdersState : AdminOrdersState :=
  { sampleState with orders := [sampleOrder1, sampleOrder2] }

/-- A service whose getAllOrders succeeds with an empty page and total 0. -/
def emptyPageApi : OrdersApi :=
  { okApi with getAllOrders := fun _ => .ok (some { orders := some [], total := 0 }) }

/-- A service whose getAllOrders succeeds but the response body is missing
the orders field. -/
def malformedApi : OrdersApi :=
  { okApi with getAllOrders := fun _ => .ok (some { orders := none, total := 5 }) }

/-- A service on which the status update of order 2 is rejected and every
other request succeeds. -/
def failMiddleApi : OrdersApi :=
  { okApi with updateOrderStatus := fun oid _ =>
      if oid = 2 then .error "boom" else .ok () }

/-- A state whose selection holds the ids 1, 2 and 3, in that order. -/
def bulkSelState : AdminOrdersState :=
  { sampleState with selectedOrders := [1, 2, 3] }

/-- An initial server-side status assignment: every order is pending. -/
def pendingServer : Nat → String := fun _ => "pending"

/-- A state on page 3 with a status filter active, as right after a filter
field was changed while the controller was displaying page 3. -/
def page3State : AdminOrdersState :=
  { sampleState with currentPage := 3, filterStatus := "shipped" }

/-! Theorems settling the claims. -/

/-- Claim C7: for every current query state, the parameter set sent by
exportCurrentView equals the current status, search and date range, and
contains none of page, sortField and sortOrder (nor limit). An empty
status or search string means no such filter is active, and the
corresponding key is absent. -/
theorem handleExportOrders_params (api : OrdersApi) (s : AdminOrdersState) :
    (handleExportOrders api s).2 = [ApiCall.exportOrders (exportParams s)] ∧
    (exportParams s).page = none ∧
    (exportParams s).limit = none ∧
    (exportParams s).sortField = none ∧
    (exportParams s).sortOrder = none ∧
    (exportParams s).status.getD "" = s.filterStatus ∧
    (exportParams s).search.getD "" = s.searchTerm ∧
    (exportParams s).startDate = s.startDate ∧
    (exportParams s).endDate = s.endDate := by
  refine ⟨rfl, rfl, rfl, rfl, rfl, ?_, ?_, rfl, rfl⟩
  · by_cases h : s.filterStatus = "" <;> simp [exportParams, h]
  · by_cases h : s.searchTerm = "" <;> simp [exportParams, h]

/-- Helper: the selection after toggleOrderSelection, as one equation. -/
theorem toggleOrderSelection_selectedOrders (s : AdminOrdersState) (x : Nat) :
    (toggleOrderSelection s x).selectedOrders =
      if x ∈ s.selectedOrders then s.selectedOrders.erase x
      else s.selectedOrders ++ [x] := by
  by_cases hx : x ∈ s.selectedOrders <;> simp [toggleOrderSelection, hx]

/-- Claim C10: toggleOrderSelection adds the id when absent and removes it
when present, and applying it twice yields a selection with exactly the
original membership (the JS Set moves a re-added id to the end of the
iteration order, so equality is equality of sets, witnessed by toFinset). -/
theorem toggleOrderSelection_involution (s : AdminOrdersState) (x : Nat)
    (h : s.selectedOrders.Nodup) :
    (x ∈ s.selectedOrders → x ∉ (toggleOrderSelection s x).selectedOrders) ∧
    (x ∉ s.selectedOrders → x ∈ (toggleOrderSelection s x).selectedOrders) ∧
    (toggleOrderSelection (toggleOrderSelection s x) x).selectedOrders.toFinset
      = s.selectedOrders.toFinset := by
  by_cases hx : x ∈ s.selectedOrders
  · have h1 : (toggleOrderSelection s x).selectedOrders = s.selectedOrders.erase x := by
      rw [toggleOrderSelection_selectedOrders, if_pos hx]
    have hne : x ∉ s.selectedOrders.erase x :=
      fun hc => ((List.Nodup.mem_erase_iff h).1 hc).1 rfl
    have h2 : (toggleOrderSelection (toggleOrderSelection s x) x).selectedOrders
        = s.selectedOrders.erase x ++ [x] := by
      rw [toggleOrderSelection_selectedOrders, h1, if_neg hne]
    refine ⟨fun _ => by rw [h1]; exact hne, fun hc => absurd hx hc, ?_⟩
    rw [h2]
    ext y
    simp only [List.mem_toFinset, List.mem_append, List.mem_singleton,
      List.Nodup.mem_erase_iff h]
    constructor
    · rintro (⟨_, hy⟩ | rfl)
      · exact hy
      · exact hx
    · intro hy
      by_cases hyx : y = x
      · exact Or.inr hyx
      · exact Or.inl ⟨hyx, hy⟩
  · have h1 : (toggleOrderSelection s x).selectedOrders = s.selectedOrders ++ [x] := by
      rw [toggleOrderSelection_selectedOrders, if_neg hx]
    have hmem : x ∈ s.selectedOrders ++ [x] := by simp
    have h2 : (toggleOrderSelection (toggleOrderSelection s x) x).selectedOrders
        = s.selectedOrders := by
      rw [toggleOrderSelection_selectedOrders, h1, if_pos hmem,
        List.erase_append_right _ hx, List.erase_cons_head]
      simp
    exact ⟨fun hc => absurd hc hx, fun _ => by rw [h1]; exact hmem, by rw [h2]⟩

/-- Witness for claim C10 at the concrete selection containing ids 1 and 2:
toggling id 1 twice restores the selection as a set. -/
theorem toggleOrderSelection_involution_witness :
    toggleWitnessState.selectedOrders.Nodup ∧
    (toggleOrderSelection (toggleOrderSelection toggleWitnessState 1) 1).selectedOrders.toFinset
      = toggleWitnessState.selectedOrders.toFinset :=
  ⟨by decide, (toggleOrderSelection_involution toggleWitnessState 1 (by decide)).2.2⟩

/-- Counterexample to claim C1: starting from a non-empty displayed list,
a failing fetch still clears the list; the non-empty previous list is not
preserved, contrary to the claim. -/
theorem loadOrders_failure_counterexample :
    twoOrdersState.orders ≠ [] ∧
    (loadOrders failingApi twoOrdersState 1).1.error = some "network down" ∧
    (loadOrders failingApi twoOrdersState 1).1.orders = [] := by
  refine ⟨by decide, by decide, by decide⟩

/-- Claim C1 (amended): when the fetch of loadOrders fails, the controller
sets the error state and clears the order list unconditionally; the
previous list is never preserved, whether it was empty or not. -/
theorem loadOrders_failure_sets_error_and_clears
    (api : OrdersApi) (s : AdminOrdersState) (page : Nat) (msg : String)
    (h : api.getAllOrders (loadOrdersParams s page) = .error msg)
    (hmsg : msg ≠ "") :
    (loadOrders api s page).1.error = some msg ∧
    (loadOrders api s page).1.orders = [] ∧
    (loadOrders api s page).1.loading = false := by
  simp [loadOrders, h, hmsg]

/-- Witness for the amended claim C1 at the failing service. -/
theorem loadOrders_failure_witness :
    (loadOrders failingApi sampleState 1).1.error = some "network down" ∧
    (loadOrders failingApi sampleState 1).1.orders = [] ∧
    (loadOrders failingApi sampleState 1).1.loading = false :=
  loadOrders_failure_sets_error_and_clears failingApi sampleState 1
    "network down" rfl (by decide)

/-- Counterexample to claim C2: select all (both) loaded orders of the
page with ids 1 and 2, then successfully load a page whose only order has
id 3. The selection still holds ids 1 and 2, which are not among the ids
of the newly fetched page, so the claimed subset invariant is violated. -/
theorem selection_subset_counterexample :
    (loadOrders okApi (toggleAllOrders twoOrdersState) 2).1.selectedOrders = [1, 2] ∧
    (loadOrders okApi (toggleAllOrders twoOrdersState) 2).1.orders.map Order._id = [3] ∧
    ¬ (∀ oid ∈ (loadOrders okApi (toggleAllOrders twoOrdersState) 2).1.selectedOrders,
        oid ∈ (loadOrders okApi (toggleAllOrders twoOrdersState) 2).1.orders.map Order._id) := by
  refine ⟨by decide, by decide, by decide⟩

/-- Claim C2 (amended): loadOrders never modifies the selection set, so
after selecting all currently loaded orders and then successfully loading
a different page the selection still holds exactly the previous page ids;
the subset invariant does not hold across page loads. -/
theorem loadOrders_preserves_selection
    (api : OrdersApi) (s : AdminOrdersState) (page : Nat) :
    (loadOrders api s page).1.selectedOrders = s.selectedOrders := by
  cases h : api.getAllOrders (loadOrdersParams s page) with
  | error msg => simp [loadOrders, h]
  | ok r =>
    cases r with
    | none => simp [loadOrders, h]
    | some resp =>
      cases ho : resp.orders with
      | none => simp [loadOrders, h, ho]
      | some list => simp [loadOrders, h, ho]

/-- Counterexample to claim C6: with two orders displayed, a failing stats
fetch stores a snapshot whose totalOrders is 2, not 0; the snapshot is not
zero-valued. -/
theorem loadOrderStats_failure_counterexample :
    (loadOrderStats failingApi twoOrdersState).1.orderStats =
      some { totalOrders := 2, totalRevenue := 0, averageOrderValue := 0,
             statusBreakdown := [], dailyStats := [] } ∧
    (2 : Nat) ≠ 0 := by
  refine ⟨by decide, by decide⟩

/-- Claim C6 (amended): when the stats fetch fails, the stored snapshot has
totalRevenue 0, averageOrderValue 0, empty statusBreakdown and empty
dailyStats, but totalOrders equal to the length of the currently displayed
order list; the error is surfaced, and the order list, current page and
total pages are untouched, so order loading is unaffected. -/
theorem loadOrderStats_failure_fallback
    (api : OrdersApi) (s : AdminOrdersState) (msg : String)
    (h : api.getOrderStats (statsParams s) = .error msg)
    (hmsg : msg ≠ "") :
    (loadOrderStats api s).1.orderStats =
      some { totalOrders := s.orders.length, totalRevenue := 0,
             averageOrderValue := 0, statusBreakdown := [], dailyStats := [] } ∧
    (loadOrderStats api s).1.error = some msg ∧
    (loadOrderStats api s).1.toasts = msg :: s.toasts ∧
    (loadOrderStats api s).1.orders = s.orders ∧
    (loadOrderStats api s).1.currentPage = s.currentPage ∧
    (loadOrderStats api s).1.totalPages = s.totalPages := by
  simp [loadOrderStats, fallbackStats, h, hmsg]

/-- Witness for the amended claim C6 at the failing service. -/
theorem loadOrderStats_failure_witness :
    (loadOrderStats failingApi twoOrdersState).1.error = some "network down" ∧
    (loadOrderStats failingApi twoOrdersState).1.orders = twoOrdersState.orders :=
  ⟨(loadOrderStats_failure_fallback failingApi twoOrdersState
      "network down" rfl (by decide)).2.1,
   (loadOrderStats_failure_fallback failingApi twoOrdersState
      "network down" rfl (by decide)).2.2.2.1⟩

/-- Claim C8: an empty successful page, orders empty and total 0, yields no
error, an empty list and zero total pages with the current page set to the
requested page, while a well-formed transport success whose body lacks the
orders field yields the invalid-format error with the list cleared. -/
theorem loadOrders_empty_vs_malformed
    (api1 api2 : OrdersApi) (s : AdminOrdersState) (page : Nat) (resp2 : OrdersResp)
    (h1 : api1.getAllOrders (loadOrdersParams s page)
           = .ok (some { orders := some [], total := 0 }))
    (h2 : api2.getAllOrders (loadOrdersParams s page) = .ok (some resp2))
    (h2m : resp2.orders = none) :
    (loadOrders api1 s page).1.error = none ∧
    (loadOrders api1 s page).1.orders = [] ∧
    (loadOrders api1 s page).1.totalPages = 0 ∧
    (loadOrders api1 s page).1.currentPage = page ∧
    (loadOrders api2 s page).1.error = some "Invalid response format" ∧
    (loadOrders api2 s page).1.orders = [] := by
  refine ⟨?_, ?_, ?_, ?_, ?_, ?_⟩ <;>
    simp [loadOrders, h1, h2, h2m, ITEMS_PER_PAGE]

/-- Witness for claim C8 at the empty-page service and the malformed-body
service. -/
theorem loadOrders_empty_vs_malformed_witness :
    (loadOrders emptyPageApi sampleState 1).1.error = none ∧
    (loadOrders emptyPageApi sampleState 1).1.totalPages = 0 ∧
    (loadOrders malformedApi sampleState 1).1.error = some "Invalid response format" := by
  have h := loadOrders_empty_vs_malformed emptyPageApi malformedApi sampleState 1
    { orders := none, total := 5 } rfl rfl rfl
  exact ⟨h.1, h.2.2.1, h.2.2.2.2.1⟩

/-- Helper: the sequential loop issues the requests of the successful
prefix and then the failing one, stops there, and reports that error. -/
theorem bulkLoop_append_fail
    (upd : Nat → String → Except String Unit) (st : String)
    (l1 l2 : List Nat) (b : Nat) (msg : String)
    (hok : ∀ a ∈ l1, upd a st = .ok ())
    (hb : upd b st = .error msg) :
    bulkLoop upd st (l1 ++ b :: l2) = (l1 ++ [b], some msg) := by
  induction l1 with
  | nil => simp [bulkLoop, hb]
  | cons a tl ih =>
    have ha : upd a st = .ok () := hok a (by simp)
    have ih2 := ih (fun x hx => hok x (by simp [hx]))
    simp [bulkLoop, ha, ih2]

/-- Helper: the applied updates of a run that fails at b are exactly the
successful prefix before b. -/
theorem bulkApplied_append_fail
    (upd : Nat → String → Except String Unit) (st : String)
    (l1 l2 : List Nat) (b : Nat) (msg : String)
    (hok : ∀ a ∈ l1, upd a st = .ok ())
    (hb : upd b st = .error msg) :
    bulkApplied upd st (l1 ++ b :: l2) = l1 := by
  induction l1 with
  | nil => simp [bulkApplied, hb]
  | cons a tl ih =>
    have ha : upd a st = .ok () := hok a (by simp)
    have ih2 := ih (fun x hx => hok x (by simp [hx]))
    simp [bulkApplied, ha, ih2]

/-- Counterexample to claim C3: over the selection [1, 2, 3] where only
the update of 2 fails, only the update of 1 is applied, order 3 keeps its
previous status because its request is never issued, and the selection set
is not cleared. -/
theorem handleBulkStatusUpdate_counterexample :
    bulkApplied failMiddleApi.updateOrderStatus "shipped" [1, 2, 3] = [1] ∧
    applyUpdates pendingServer
      (bulkApplied failMiddleApi.updateOrderStatus "shipped" [1, 2, 3]) "shipped" 3
      = "pending" ∧
    ("pending" : String) ≠ "shipped" ∧
    (handleBulkStatusUpdate failMiddleApi bulkSelState "shipped").1.selectedOrders
      = [1, 2, 3] ∧
    ([1, 2, 3] : List Nat) ≠ [] := by
  refine ⟨by decide, by decide, by decide, by decide, by decide⟩

/-- Claim C3 (amended): for a bulk update over selected ids [A, B, C]
where the update of B fails and the others would succeed, the run applies
only A: A ends in the new status, B and C keep their previous status, the
request for C is never issued, exactly one aggregate error with a fixed
message is reported, and the selection set is preserved, not cleared; it
is cleared only when every update succeeds. -/
theorem handleBulkStatusUpdate_middle_failure
    (api : OrdersApi) (s : AdminOrdersState) (st : String)
    (A B C : Nat) (msg : String) (server : Nat → String)
    (hsel : s.selectedOrders = [A, B, C])
    (hA : api.updateOrderStatus A st = .ok ())
    (hB : api.updateOrderStatus B st = .error msg)
    (hBA : B ≠ A) (hCA : C ≠ A) :
    bulkApplied api.updateOrderStatus st s.selectedOrders = [A] ∧
    applyUpdates server (bulkApplied api.updateOrderStatus st s.selectedOrders) st A
      = st ∧
    applyUpdates server (bulkApplied api.updateOrderStatus st s.selectedOrders) st B
      = server B ∧
    applyUpdates server (bulkApplied api.updateOrderStatus st s.selectedOrders) st C
      = server C ∧
    (handleBulkStatusUpdate api s st).1.selectedOrders = [A, B, C] ∧
    (handleBulkStatusUpdate api s st).1.toasts
      = "Failed to update selected orders" :: s.toasts ∧
    (handleBulkStatusUpdate api s st).2
      = [ApiCall.updateOrderStatus A st, ApiCall.updateOrderStatus B st] := by
  have happ0 : bulkApplied api.updateOrderStatus st [A, B, C] = [A] := by
    simpa using bulkApplied_append_fail api.updateOrderStatus st [A] [C] B msg
      (by intro a ha; simp at ha; subst ha; exact hA) hB
  have hloop0 : bulkLoop api.updateOrderStatus st [A, B, C] = ([A, B], some msg) := by
    simpa using bulkLoop_append_fail api.updateOrderStatus st [A] [C] B msg
      (by intro a ha; simp at ha; subst ha; exact hA) hB
  have happ : bulkApplied api.updateOrderStatus st s.selectedOrders = [A] := by
    rw [hsel]; exact happ0
  refine ⟨happ, ?_, ?_, ?_, ?_, ?_, ?_⟩
  · rw [happ]; simp [applyUpdates]
  · rw [happ]; simp [applyUpdates, hBA]
  · rw [happ]; simp [applyUpdates, hCA]
  · simp [handleBulkStatusUpdate, hsel, hloop0]
  · simp [handleBulkStatusUpdate, hsel, hloop0]
  · simp [handleBulkStatusUpdate, hsel, hloop0]

/-- Witness for the amended claim C3 at the concrete failing service. -/
theorem handleBulkStatusUpdate_middle_failure_witness :
    bulkApplied failMiddleApi.updateOrderStatus "shipped"
      bulkSelState.selectedOrders = [1] ∧
    applyUpdates pendingServer
      (bulkApplied failMiddleApi.updateOrderStatus "shipped"
        bulkSelState.selectedOrders) "shipped" 3 = pendingServer 3 ∧
    (handleBulkStatusUpdate failMiddleApi bulkSelState "shipped").1.selectedOrders
      = [1, 2, 3] := by
  have h := handleBulkStatusUpdate_middle_failure failMiddleApi bulkSelState
    "shipped" 1 2 3 "boom" pendingServer rfl rfl rfl (by decide) (by decide)
  exact ⟨h.1, h.2.2.2.1, h.2.2.2.2.1⟩

/-- Counterexample to claim C4: when the update at the second position
fails, the request at that position was issued nonetheless; the issued
requests are exactly those of positions one and two, so it is false that
no update at or after the failing position is sent. -/
theorem bulkLoop_sent_counterexample :
    (bulkLoop failMiddleApi.updateOrderStatus "shipped" [1, 2, 3]).1 = [1, 2] ∧
    (2 : Nat) ∈ (bulkLoop failMiddleApi.updateOrderStatus "shipped" [1, 2, 3]).1 ∧
    failMiddleApi.updateOrderStatus 2 "shipped" = .error "boom" := by
  refine ⟨by decide, by decide, rfl⟩

/-- Claim C4 (amended): the bulk update issues one request per selected
id, sequentially in the iteration order of the selection, and is not
atomic: when the k-th update fails, every update before position k was
issued and applied, the request at position k was issued but not applied,
no request after position k is issued, and the handler reports the single
fixed aggregate message, which carries no partial-success detail. -/
theorem handleBulkStatusUpdate_sequential
    (api : OrdersApi) (s : AdminOrdersState) (st : String)
    (l1 l2 : List Nat) (b : Nat) (msg : String)
    (hsel : s.selectedOrders = l1 ++ b :: l2)
    (hok : ∀ a ∈ l1, api.updateOrderStatus a st = .ok ())
    (hb : api.updateOrderStatus b st = .error msg) :
    (bulkLoop api.updateOrderStatus st s.selectedOrders).1 = l1 ++ [b] ∧
    (bulkLoop api.updateOrderStatus st s.selectedOrders).2 = some msg ∧
    bulkApplied api.updateOrderStatus st s.selectedOrders = l1 ∧
    (handleBulkStatusUpdate api s st).2
      = (l1 ++ [b]).map (fun oid => ApiCall.updateOrderStatus oid st) ∧
    (handleBulkStatusUpdate api s st).1.toasts
      = "Failed to update selected orders" :: s.toasts := by
  have hloop := bulkLoop_append_fail api.updateOrderStatus st l1 l2 b msg hok hb
  have happ := bulkApplied_append_fail api.updateOrderStatus st l1 l2 b msg hok hb
  refine ⟨by rw [hsel, hloop], by rw [hsel, hloop], by rw [hsel, happ], ?_, ?_⟩
  · simp [handleBulkStatusUpdate, hsel, hloop]
  · simp [handleBulkStatusUpdate, hsel, hloop]

/-- Witness for the amended claim C4 at the concrete failing service. -/
theorem handleBulkStatusUpdate_sequential_witness :
    (bulkLoop failMiddleApi.updateOrderStatus "shipped"
      bulkSelState.selectedOrders).1 = [1] ++ [2] ∧
    bulkApplied failMiddleApi.updateOrderStatus "shipped"
      bulkSelState.selectedOrders = [1] ∧
    (handleBulkStatusUpdate failMiddleApi bulkSelState "shipped").1.toasts
      = "Failed to update selected orders" :: bulkSelState.toasts := by
  have h := handleBulkStatusUpdate_sequential failMiddleApi bulkSelState
    "shipped" [1] [3] 2 "boom" rfl
    (by intro a ha; simp at ha; subst ha; rfl) rfl
  exact ⟨h.1, h.2.2.1, h.2.2.2.2⟩

/-- Helper: loadOrders always issues exactly its one getAllOrders call. -/
theorem loadOrders_calls (api : OrdersApi) (s : AdminOrdersState) (page : Nat) :
    (loadOrders api s page).2 = [ApiCall.getAllOrders (loadOrdersParams s page)] := rfl

/-- Helper: loadOrderStats always issues exactly its one getOrderStats
call. -/
theorem loadOrderStats_calls (api : OrdersApi) (s : AdminOrdersState) :
    (loadOrderStats api s).2 = [ApiCall.getOrderStats (statsParams s)] := rfl

/-- Helper: the fields loadOrders never writes, in every branch. -/
theorem loadOrders_untouched (api : OrdersApi) (s : AdminOrdersState) (page : Nat) :
    (loadOrders api s page).1.startDate = s.startDate ∧
    (loadOrders api s page).1.endDate = s.endDate ∧
    (loadOrders api s page).1.orderStats = s.orderStats ∧
    (loadOrders api s page).1.filterStatus = s.filterStatus ∧
    (loadOrders api s page).1.searchTerm = s.searchTerm ∧
    (loadOrders api s page).1.sortField = s.sortField ∧
    (loadOrders api s page).1.sortOrder = s.sortOrder := by
  cases h : api.getAllOrders (loadOrdersParams s page) with
  | error msg => simp [loadOrders, h]
  | ok r =>
    cases r with
    | none => simp [loadOrders, h]
    | some resp =>
      cases ho : resp.orders with
      | none => simp [loadOrders, h, ho]
      | some list => simp [loadOrders, h, ho]

/-- Helper: the fields loadOrderStats never writes, in every branch. -/
theorem loadOrderStats_untouched (api : OrdersApi) (s : AdminOrdersState) :
    (loadOrderStats api s).1.orders = s.orders ∧
    (loadOrderStats api s).1.currentPage = s.currentPage ∧
    (loadOrderStats api s).1.totalPages = s.totalPages ∧
    (loadOrderStats api s).1.startDate = s.startDate ∧
    (loadOrderStats api s).1.endDate = s.endDate ∧
    (loadOrderStats api s).1.selectedOrders = s.selectedOrders := by
  cases h : api.getOrderStats (statsParams s) with
  | error msg => simp [loadOrderStats, h]
  | ok r =>
    cases r with
    | none => simp [loadOrderStats, h]
    | some resp => simp [loadOrderStats, h]

/-- Helper: a successful well-formed fetch stores the requested page as
the current page. -/
theorem loadOrders_success_currentPage
    (api : OrdersApi) (s : AdminOrdersState) (page : Nat)
    (resp : OrdersResp) (l : List Order)
    (hresp : api.getAllOrders (loadOrdersParams s page) = .ok (some resp))
    (hl : resp.orders = some l) :
    (loadOrders api s page).1.currentPage = page := by
  simp [loadOrders, hresp, hl]

/-- Helper: the filter-change effect, unfolded once. -/
theorem onFilterChange_def (api : OrdersApi) (s : AdminOrdersState) :
    onFilterChange api s =
      ((loadOrderStats api (loadOrders api s 1).1).1,
       (loadOrders api s 1).2 ++ (loadOrderStats api (loadOrders api s 1).1).2) := rfl

/-- Counterexample to claim C5: a filter change processed while the
controller shows page 3 issues its requests, but when the order fetch
fails the stored page number stays 3; it is not reset to 1. -/
theorem onFilterChange_page_counterexample :
    (onFilterChange failingApi page3State).1.currentPage = 3 ∧
    (3 : Nat) ≠ 1 := by
  refine ⟨by decide, by decide⟩

/-- Claim C5 (amended): a change of any filter field triggers exactly one
getAllOrders call, carrying page 1 and the new filter and sort fields,
and exactly one getOrderStats call carrying the new date range; the page
number is reset to 1 provided the order fetch succeeds with a well-formed
body (on a failed fetch the stored page number keeps its previous value,
though the request still carried page 1). -/
theorem onFilterChange_calls_and_page
    (api : OrdersApi) (s : AdminOrdersState) (resp : OrdersResp) (l : List Order)
    (hresp : api.getAllOrders (loadOrdersParams s 1) = .ok (some resp))
    (hl : resp.orders = some l) :
    (onFilterChange api s).2 =
      [ApiCall.getAllOrders (loadOrdersParams s 1),
       ApiCall.getOrderStats (statsParams s)] ∧
    (onFilterChange api s).1.currentPage = 1 ∧
    (loadOrdersParams s 1).page = some 1 ∧
    (loadOrdersParams s 1).status = some s.filterStatus ∧
    (loadOrdersParams s 1).search = some s.searchTerm ∧
    (loadOrdersParams s 1).sortField = some s.sortField ∧
    (loadOrdersParams s 1).sortOrder = some s.sortOrder ∧
    (statsParams s).startDate = s.startDate ∧
    (statsParams s).endDate = s.endDate := by
  have hu := loadOrders_untouched api s 1
  have hstats_eq : statsParams (loadOrders api s 1).1 = statsParams s := by
    simp [statsParams, hu.1, hu.2.1]
  refine ⟨?_, ?_, rfl, rfl, rfl, rfl, rfl, rfl, rfl⟩
  · rw [onFilterChange_def]
    simp [loadOrders_calls, loadOrderStats_calls, hstats_eq]
  · rw [onFilterChange_def]
    simp [(loadOrderStats_untouched api (loadOrders api s 1).1).2.1,
      loadOrders_success_currentPage api s 1 resp l hresp hl]

/-- Witness for the amended claim C5 at the succeeding service. -/
theorem onFilterChange_calls_and_page_witness :
    (onFilterChange okApi page3State).2 =
      [ApiCall.getAllOrders (loadOrdersParams page3State 1),
       ApiCall.getOrderStats (statsParams page3State)] ∧
    (onFilterChange okApi page3State).1.currentPage = 1 := by
  have h := onFilterChange_calls_and_page okApi page3State
    { orders := some [sampleOrder3], total := 1 } [sampleOrder3] rfl rfl
  exact ⟨h.1, h.2.1⟩

/-- Claim C9: each of the five operations, loadOrders, loadOrderStats,
handleStatusUpdate, handleBulkStatusUpdate and handleExportOrders, catches
the failure of its own requests and surfaces it only as an error message
or toast in the returned state, and each operation reads only its own
endpoints of the service, so the failure of one operation cannot change
the behaviour of another. -/
theorem controller_error_containment
    (api : OrdersApi) (s : AdminOrdersState) (page oid : Nat) (st msg : String)
    (hmsg : msg ≠ "") :
    (api.getAllOrders (loadOrdersParams s page) = .error msg →
      (loadOrders api s page).1.error = some msg) ∧
    (api.getOrderStats (statsParams s) = .error msg →
      (loadOrderStats api s).1.error = some msg ∧
      (loadOrderStats api s).1.orders = s.orders) ∧
    (api.updateOrderStatus oid st = .error msg →
      (handleStatusUpdate api s oid st).1.toasts = msg :: s.toasts ∧
      (handleStatusUpdate api s oid st).1.orders = s.orders ∧
      (handleStatusUpdate api s oid st).2 = [ApiCall.updateOrderStatus oid st]) ∧
    (s.selectedOrders.length ≠ 0 →
      (bulkLoop api.updateOrderStatus st s.selectedOrders).2 = some msg →
      (handleBulkStatusUpdate api s st).1.toasts
        = "Failed to update selected orders" :: s.toasts ∧
      (handleBulkStatusUpdate api s st).1.orders = s.orders ∧
      (handleBulkStatusUpdate api s st).1.selectedOrders = s.selectedOrders) ∧
    (api.exportOrders (exportParams s) = .error msg →
      (handleExportOrders api s).1.error = some msg ∧
      (handleExportOrders api s).1.orders = s.orders) ∧
    (∀ api2 : OrdersApi, api2.getAllOrders = api.getAllOrders →
      loadOrders api2 s page = loadOrders api s page) ∧
    (∀ api2 : OrdersApi, api2.getOrderStats = api.getOrderStats →
      loadOrderStats api2 s = loadOrderStats api s) ∧
    (∀ api2 : OrdersApi, api2.updateOrderStatus = api.updateOrderStatus →
      api2.getAllOrders = api.getAllOrders →
      api2.getOrderStats = api.getOrderStats →
      handleStatusUpdate api2 s oid st = handleStatusUpdate api s oid st) ∧
    (∀ api2 : OrdersApi, api2.updateOrderStatus = api.updateOrderStatus →
      api2.getAllOrders = api.getAllOrders →
      api2.getOrderStats = api.getOrderStats →
      handleBulkStatusUpdate api2 s st = handleBulkStatusUpdate api s st) ∧
    (∀ api2 : OrdersApi, api2.exportOrders = api.exportOrders →
      handleExportOrders api2 s = handleExportOrders api s) := by
  refine ⟨?_, ?_, ?_, ?_, ?_, ?_, ?_, ?_, ?_, ?_⟩
  · intro h; simp [loadOrders, h, hmsg]
  · intro h; simp [loadOrderStats, h, hmsg]
  · intro h; simp [handleStatusUpdate, h, hmsg]
  · intro hne hloop; simp [handleBulkStatusUpdate, hne, hloop]
  · intro h; simp [handleExportOrders, h, hmsg]
  · intro api2 h; unfold loadOrders loadOrdersParams; rw [h]
  · intro api2 h; unfold loadOrderStats statsParams; rw [h]
  · intro api2 h1 h2 h3
    unfold handleStatusUpdate loadOrders loadOrderStats
    rw [h1, h2, h3]
  · intro api2 h1 h2 h3
    unfold handleBulkStatusUpdate loadOrders loadOrderStats
    rw [h1, h2, h3]
  · intro api2 h; unfold handleExportOrders exportParams; rw [h]

/-- Witness for claim C9 at the failing service and a state with a
non-empty selection, exercising all five containment clauses. -/
theorem controller_error_containment_witness :
    (loadOrders failingApi bulkSelState 1).1.error = some "network down" ∧
    (loadOrderStats failingApi bulkSelState).1.error = some "network down" ∧
    (handleStatusUpdate failingApi bulkSelState 5 "shipped").1.toasts
      = "network down" :: bulkSelState.toasts ∧
    (handleBulkStatusUpdate failingApi bulkSelState "shipped").1.toasts
      = "Failed to update selected orders" :: bulkSelState.toasts ∧
    (handleBulkStatusUpdate failingApi bulkSelState "shipped").1.selectedOrders
      = bulkSelState.selectedOrders ∧
    (handleExportOrders failingApi bulkSelState).1.error = some "network down" := by
  have h := controller_error_containment failingApi bulkSelState 1 5
    "shipped" "network down" (by decide)
  have hbulk := h.2.2.2.1 (by decide) rfl
  exact ⟨h.1 rfl, (h.2.1 rfl).1, (h.2.2.1 rfl).1, hbulk.1, hbulk.2.2,
    (h.2.2.2.2.1 rfl).1⟩

end AdminOrders
